import Mathlib

/-!
Shallow embedding of the tinacms CLI dev-command reconciliation core:
the codegen pipeline (`packages/@tinacms/cli/src/next/codegen/index.ts`)
and the watch/reconcile orchestration of the dev command
(`packages/@tinacms/cli/src/next/commands/dev-command/index.ts`).

External collaborators (the GraphQL schema builder, the content indexer,
esbuild's transpiler, filesystem watching) are modelled at their interface
boundary: fallible externals become `Except String` values, pure externals
become abstract string/function parameters carried by the structures.
-/

deriving instance DecidableEq for Except

/-- JS truthiness of an optional string field: `undefined` and the empty
string are falsy, every other string is truthy. -/
def jsTruthy : Option String → Bool
  | none => false
  | some s => !(s == "")

/-- JS truthiness of the optional numeric `port`: `undefined` and `0` are
falsy. -/
def jsPortTruthy : Option Nat → Bool
  | none => false
  | some p => !(p == 0)

/-- JS string interpolation of a possibly-undefined value: interpolating
`undefined` yields the literal text "undefined". -/
def jsStr : Option String → String
  | none => "undefined"
  | some s => s

/-- Infix search on character lists, modelling JS `String.prototype.includes`. -/
def charsIsInfix (pat : List Char) : List Char → Bool
  | [] => pat.isEmpty
  | c :: rest => pat.isPrefixOf (c :: rest) || charsIsInfix pat rest

/-- `includes s pat` models JS `s.includes(pat)`. -/
def includes (s pat : String) : Bool := charsIsInfix pat.toList s.toList

/-- `export const TINA_HOST = 'content.tinajs.io'` -/
def TINA_HOST : String := "content.tinajs.io"

/-- `config.tinaioConfig` sub-object: only the `contentApiUrlOverride`
field is consulted by the codegen module. -/
structure TinaIOConfig where
  contentApiUrlOverride : Option String
deriving DecidableEq, Repr

/-- The slice of the resolved user configuration read by `getApiURL` and
`genClient`. -/
structure Config where
  branch : Option String
  clientId : Option String
  token : Option String
  contentApiUrlOverride : Option String
  tinaioConfig : Option TinaIOConfig
deriving DecidableEq, Repr

/-- The slice of `ConfigManager` consulted by the codegen module:
the resolved config, `getTinaGraphQLVersion()` and `isUsingTs()`. -/
structure ConfigManager where
  config : Config
  tinaGraphQLVersion : String
  isUsingTs : Bool
deriving DecidableEq, Repr

/-- `Codegen.getApiURL`: resolves the API URL from the override, local
port, or the cloud triple `{branch, clientId, token}`; throws (modelled as
`Except.error`) listing the missing fields when none of the three routes
applies. -/
def getApiURL (cm : ConfigManager) (port : Option Nat) : Except String String :=
  let branch := cm.config.branch
  let clientId := cm.config.clientId
  let token := cm.config.token
  let version := cm.tinaGraphQLVersion
  let tinaioOverride := cm.config.tinaioConfig.bind (fun t => t.contentApiUrlOverride)
  let baseUrl := if jsTruthy tinaioOverride then jsStr tinaioOverride else "https://" ++ TINA_HOST
  if (!jsTruthy branch || !jsTruthy clientId || !jsTruthy token)
      && !jsPortTruthy port && !jsTruthy cm.config.contentApiUrlOverride then
    let missing : List String :=
      (if !jsTruthy branch then ["branch"] else [])
      ++ (if !jsTruthy clientId then ["clientId"] else [])
      ++ (if !jsTruthy token then ["token"] else [])
    Except.error ("Client not configured properly. Missing "
      ++ String.intercalate ", " missing
      ++ ". Please visit https://tina.io/docs/tina-cloud/connecting-site/ for more information")
  else
    let apiURL := if jsPortTruthy port
      then "http://localhost:" ++ toString ((port.getD 0)) ++ "/graphql"
      else baseUrl ++ "/" ++ version ++ "/content/" ++ jsStr clientId
        ++ "/github/" ++ jsStr branch
    Except.ok (if jsTruthy cm.config.contentApiUrlOverride
      then jsStr cm.config.contentApiUrlOverride else apiURL)

/-- On-disk state of the generated artifact files managed by the codegen
module; `none` means the file does not exist. One field per
`configManager.generated*FilePath` plus the generated schema doc. -/
structure FS where
  clientJS : Option String
  typesD : Option String
  typesJS : Option String
  typesTS : Option String
  clientTS : Option String
  queries : Option String
  fragments : Option String
  graphqlGQL : Option String
deriving DecidableEq, Repr

/-- The empty generated-file layout. -/
def FS.empty : FS :=
  { clientJS := none, typesD := none, typesJS := none, typesTS := none,
    clientTS := none, queries := none, fragments := none, graphqlGQL := none }

/-- `Codegen.removeGeneratedFilesIfExists`: unlink each of the seven
generated SDK files when present (unlink-if-exists collapses to setting
the entry to `none`). -/
def removeGeneratedFilesIfExists (fs : FS) : FS :=
  { fs with
    clientJS := none
    typesD := none
    typesJS := none
    typesTS := none
    clientTS := none
    queries := none
    fragments := none }

/-- Text of the oversized-fragment advisory printed by
`maybeWarnFragmentSize`. -/
def fragmentWarning : String :=
  "Warning: frags.gql is very large (>100kb). Consider setting the reference depth to 1 or 0. See code snippet below."

/-- The remediation snippet printed alongside the oversized-fragment
advisory. -/
def fragmentWarningSnippet : String :=
  "const schema = defineSchema(\x7b\n        config: \x7b\n            client: \x7b\n                referenceDepth: 1,\n            \x7d,\n        \x7d\n        // ...\n    \x7d)"

/-- `maybeWarnFragmentSize`: stat the just-written fragments file and log
a non-fatal advisory when its size exceeds 100 KiB (strictly greater than
`100 * 1024` bytes). The argument is the file's on-disk content. -/
def maybeWarnFragmentSize (file : Option String) : List String :=
  match file with
  | none => []
  | some s =>
    if s.utf8ByteSize > 100 * 1024 then [fragmentWarning, fragmentWarningSnippet] else []

/-- The client-module template of `genClient`, with the resolved API URL
and the raw token interpolated as plain string literals. -/
def clientStringOf (apiURL token : String) : String :=
  "import \x7b createClient \x7d from \"tinacms/dist/client\";\nimport \x7b queries \x7d from \"./types\";\nexport const client = createClient(\x7b url: \x27"
    ++ apiURL ++ "\x27, token: \x27" ++ token
    ++ "\x27, queries \x7d);\nexport default client;\n  "

/-- The fixed `gql` helper header prepended to the generated types file by
`genTypes`. -/
def gqlHelperHeader : String :=
  "//@ts-nocheck\n  // DO NOT MODIFY THIS FILE. This file is automatically generated by Tina\n  export function gql(strings: TemplateStringsArray, ...args: string[]): string \x7b\n    let str = \x27\x27\n    strings.forEach((string, i) => \x7b\n      str += string + (args[i] || \x27\x27)\n    \x7d)\n    return str\n  \x7d\n  "

/-- The `Codegen` object: configuration slice, optional local port, the
query/fragment documents handed over by the schema builder, the `noSDK`
flag, and the outputs of the external collaborators (`generateTypes`
result, `printSchema` result, esbuild's `transform`). -/
structure Codegen where
  configManager : ConfigManager
  port : Option Nat
  queryDoc : String
  fragDoc : String
  noSDK : Bool
  typescriptTypes : String
  printedSchema : String
  transform : String → String

/-- `Codegen.genClient`: resolve the API URL (re-running `getApiURL`) and
render the client module string. -/
def Codegen.genClient (c : Codegen) : Except String (String × String) :=
  (getApiURL c.configManager c.port).map fun apiURL =>
    (apiURL, clientStringOf apiURL (jsStr c.configManager.config.token))

/-- `Codegen.genTypes`: produce the types code string (gql helper +
external `generateTypes` output) and the printed schema document. -/
def Codegen.genTypes (c : Codegen) : Except String (String × String) :=
  (getApiURL c.configManager c.port).map fun _ =>
    (gqlHelperHeader ++ c.typescriptTypes ++ "\n  ",
     "# DO NOT MODIFY THIS FILE. This file is automatically generated by Tina\n"
       ++ c.printedSchema ++ "\nschema \x7b\n  query: Query\n  mutation: Mutation\n\x7d\n")

/-- Result of one `Codegen.execute` run: the generated-file state, the
console warnings emitted, and the returned API URL. -/
structure ExecResult where
  fs : FS
  logs : List String
  apiURL : String
deriving DecidableEq, Repr

/-- `Codegen.execute`: resolve the API URL first (so validation errors are
raised even with `noSDK`); with `noSDK` delete the seven generated files
and return; otherwise write the query and fragment docs, run the fragment
size check on the written file, generate client and types, write the
schema doc, and write the active mode's files while unlinking the other
mode's files. -/
def Codegen.execute (c : Codegen) (fs0 : FS) : Except String ExecResult :=
  match getApiURL c.configManager c.port with
  | Except.error e => Except.error e
  | Except.ok apiURL =>
    if c.noSDK then
      Except.ok { fs := removeGeneratedFilesIfExists fs0, logs := [], apiURL := apiURL }
    else
      let fs1 : FS := { fs0 with queries := some c.queryDoc }
      let fs2 : FS := { fs1 with fragments := some c.fragDoc }
      let logs := maybeWarnFragmentSize fs2.fragments
      match c.genClient with
      | Except.error e => Except.error e
      | Except.ok (_, clientStr) =>
        match c.genTypes with
        | Except.error e => Except.error e
        | Except.ok (codeString, schemaString) =>
          let fs3 : FS := { fs2 with graphqlGQL := some schemaString }
          let fs4 : FS :=
            if c.configManager.isUsingTs then
              { fs3 with
                typesTS := some codeString
                clientTS := some clientStr
                clientJS := none
                typesD := none
                typesJS := none }
            else
              { fs3 with
                typesD := some codeString
                typesJS := some (c.transform codeString)
                clientJS := some clientStr
                typesTS := none
                clientTS := none }
          Except.ok { fs := fs4, logs := logs, apiURL := apiURL }

/-- Kind of a chokidar filesystem event: `add`, `change`, or `unlink`. -/
inductive EventKind where
  | add
  | change
  | unlink
deriving DecidableEq, Repr

/-- A call made against the content database (Content Indexer). -/
inductive DBCall where
  | indexContentByPaths (paths : List String)
  | deleteContentByPaths (paths : List String)
deriving DecidableEq, Repr

/-- The content-files watcher handlers of `watchContentFiles`: `add` drops
the event while `ready` is false; `change` and `unlink` translate the path
with `printContentRelativePath` and call the indexer unconditionally.
Returns the database call made, if any. -/
def contentFilesOnEvent (printContentRelativePath : String → String)
    (ready : Bool) (k : EventKind) (file : String) : Option DBCall :=
  match k with
  | EventKind.add =>
    if !ready then none
    else some (DBCall.indexContentByPaths [printContentRelativePath file])
  | EventKind.change =>
    some (DBCall.indexContentByPaths [printContentRelativePath file])
  | EventKind.unlink =>
    some (DBCall.deleteContentByPaths [printContentRelativePath file])

/-- The query-files watcher handlers of `watchQueries`: every `add`,
`change` and `unlink` invokes the codegen callback; the `ready` flag is
set by the ready event but never consulted. Returns whether the callback
runs. -/
def queriesOnEvent (_ready : Bool) (k : EventKind) : Bool :=
  match k with
  | EventKind.add => true
  | EventKind.change => true
  | EventKind.unlink => true

/-- One step of the `setup` sequence of the dev command, in source order. -/
inductive SetupStep where
  | processConfig
  | initDatabase
  | buildSchema
  | writeLock
  | codegen
  | indexContent
deriving DecidableEq, Repr

/-- Outcome of one `setup` run: success with the API URL, a thrown error
(propagated to the caller), or a hard `process.exit` from inside the
config-validation catch block. -/
inductive SetupOutcome where
  | ok (apiURL : String)
  | err (e : String)
  | fatalExit (code : Nat)
deriving DecidableEq, Repr

/-- Environment of the dev command's `setup` closure: the result of each
external, fallible step (`configManager.processConfig`,
`createAndInitializeDatabase`, `buildSchema`, the tina-lock write,
`codegen.execute`, `database.indexContent`), plus the legacy-folder flag
that skips the lock write. -/
structure DevEnv where
  processConfigRes : Except String Unit
  initDatabaseRes : Except String Unit
  buildSchemaRes : Except String Unit
  isUsingLegacyFolder : Bool
  writeLockRes : Except String Unit
  codegenRes : Except String String
  indexContentRes : Except String Unit
deriving DecidableEq, Repr

/-- Tail of `setup` after the lock step: `codegen.execute`, then
`database.indexContent`, accumulating the executed-step trace. -/
def setupTail (env : DevEnv) (pre : List SetupStep) : SetupOutcome × List SetupStep :=
  match env.codegenRes with
  | Except.error e => (SetupOutcome.err e, pre ++ [SetupStep.codegen])
  | Except.ok apiURL =>
    match env.indexContentRes with
    | Except.error e => (SetupOutcome.err e, pre ++ [SetupStep.codegen, SetupStep.indexContent])
    | Except.ok _ =>
      (SetupOutcome.ok apiURL, pre ++ [SetupStep.codegen, SetupStep.indexContent])

/-- The dev command's `setup` closure: process the config (exiting the
process with code 1 on failure), initialize the database, build the
schema, write the tina-lock manifest unless the legacy folder layout is
active, run codegen (which writes the generated artifacts), and finally
run the full content index. Any thrown error aborts the remaining steps.
Returns the outcome and the trace of steps that were started. -/
def setup (env : DevEnv) : SetupOutcome × List SetupStep :=
  match env.processConfigRes with
  | Except.error _ => (SetupOutcome.fatalExit 1, [SetupStep.processConfig])
  | Except.ok _ =>
    match env.initDatabaseRes with
    | Except.error e =>
      (SetupOutcome.err e, [SetupStep.processConfig, SetupStep.initDatabase])
    | Except.ok _ =>
      match env.buildSchemaRes with
      | Except.error e =>
        (SetupOutcome.err e,
          [SetupStep.processConfig, SetupStep.initDatabase, SetupStep.buildSchema])
      | Except.ok _ =>
        if env.isUsingLegacyFolder then
          setupTail env
            [SetupStep.processConfig, SetupStep.initDatabase, SetupStep.buildSchema]
        else
          match env.writeLockRes with
          | Except.error e =>
            (SetupOutcome.err e,
              [SetupStep.processConfig, SetupStep.initDatabase, SetupStep.buildSchema,
                SetupStep.writeLock])
          | Except.ok _ =>
            setupTail env
              [SetupStep.processConfig, SetupStep.initDatabase, SetupStep.buildSchema,
                SetupStep.writeLock]

/-- The step order of a fully successful `setup` run, depending on the
legacy-folder flag. -/
def setupOrder (legacy : Bool) : List SetupStep :=
  [SetupStep.processConfig, SetupStep.initDatabase, SetupStep.buildSchema]
    ++ (if legacy then [] else [SetupStep.writeLock])
    ++ [SetupStep.codegen, SetupStep.indexContent]

/-- State of the dev session after the config-watcher handler returns:
still running (optionally having logged a swallowed error message), or
terminated via `process.exit`. -/
inductive SessionOutcome where
  | running (loggedError : Option String)
  | exited (code : Nat)
deriving DecidableEq, Repr

/-- The `server.watcher.on('change', ...)` handler of the dev command:
paths containing `__generated__`, `@tinacms/app` or `tinacms/dist` return
early; otherwise `setup()` is re-run inside try/catch, logging a thrown
error's message. A `process.exit` from inside `setup` is not caught.
Returns whether a reconcile (`setup`) was triggered, and the session
outcome. -/
def onConfigChange (env : DevEnv) (changedPath : String) : Bool × SessionOutcome :=
  if includes changedPath "__generated__" then
    (false, SessionOutcome.running none)
  else if includes changedPath "@tinacms/app" then
    (false, SessionOutcome.running none)
  else if includes changedPath "tinacms/dist" then
    (false, SessionOutcome.running none)
  else
    (true,
      match (setup env).1 with
      | SetupOutcome.ok _ => SessionOutcome.running none
      | SetupOutcome.err e => SessionOutcome.running (some e)
      | SetupOutcome.fatalExit c => SessionOutcome.exited c)

/-- A `DevEnv` in which every external step succeeds. -/
def envAllOk : DevEnv :=
  { processConfigRes := Except.ok ()
    initDatabaseRes := Except.ok ()
    buildSchemaRes := Except.ok ()
    isUsingLegacyFolder := false
    writeLockRes := Except.ok ()
    codegenRes := Except.ok "http://localhost:4001/graphql"
    indexContentRes := Except.ok () }

/-- The types code string produced by `genTypes` (gql helper + external
`generateTypes` output + trailing indentation). -/
def typesCodeStringOf (c : Codegen) : String :=
  gqlHelperHeader ++ c.typescriptTypes ++ "\n  "

/-- The schema document string produced by `genTypes`. -/
def schemaStringOf (c : Codegen) : String :=
  "# DO NOT MODIFY THIS FILE. This file is automatically generated by Tina\n"
    ++ c.printedSchema ++ "\nschema \x7b\n  query: Query\n  mutation: Mutation\n\x7d\n"

/-- The generated-file state left behind by a successful `Codegen.execute`
run with SDK generation enabled; it is independent of the prior on-disk
state because every tracked file is either written or unlinked. -/
def sdkResultFS (c : Codegen) (apiURL : String) : FS :=
  if c.configManager.isUsingTs then
    { clientJS := none
      typesD := none
      typesJS := none
      typesTS := some (typesCodeStringOf c)
      clientTS := some (clientStringOf apiURL (jsStr c.configManager.config.token))
      queries := some c.queryDoc
      fragments := some c.fragDoc
      graphqlGQL := some (schemaStringOf c) }
  else
    { clientJS := some (clientStringOf apiURL (jsStr c.configManager.config.token))
      typesD := some (typesCodeStringOf c)
      typesJS := some (c.transform (typesCodeStringOf c))
      typesTS := none
      clientTS := none
      queries := some c.queryDoc
      fragments := some c.fragDoc
      graphqlGQL := some (schemaStringOf c) }

/-- Modelled from the spec's API-URL sub-contract, for comparison with the
code's error construction: the names of the absent fields among branch,
clientId, token, in the checked order. -/
def missingFieldNames (cm : ConfigManager) : List String :=
  (if jsTruthy cm.config.branch then [] else ["branch"])
  ++ (if jsTruthy cm.config.clientId then [] else ["clientId"])
  ++ (if jsTruthy cm.config.token then [] else ["token"])

/-- A cloud-connected configuration with a branch configured but clientId
and token absent. -/
def cmMissingTwo : ConfigManager :=
  { config :=
      { branch := some "main", clientId := none, token := none
        contentApiUrlOverride := none, tinaioConfig := none }
    tinaGraphQLVersion := "1.4", isUsingTs := true }

/-- A fully configured cloud connection in statically-typed output mode. -/
def cmTS : ConfigManager :=
  { config :=
      { branch := some "main", clientId := some "abc", token := some "tok123"
        contentApiUrlOverride := none, tinaioConfig := none }
    tinaGraphQLVersion := "1.4", isUsingTs := true }

/-- A `Codegen` object over `cmTS` with SDK generation enabled. -/
def cgTS : Codegen :=
  { configManager := cmTS, port := none, queryDoc := "query q on c", fragDoc := "frag f on c"
    noSDK := false, typescriptTypes := "export type T = string", printedSchema := "type Query"
    transform := fun s => s }

/-- A `Codegen` object over `cmTS` with the `noSDK` flag set. -/
def cgNoSDK : Codegen :=
  { configManager := cmTS, port := none, queryDoc := "query q on c", fragDoc := "frag f on c"
    noSDK := true, typescriptTypes := "export type T = string", printedSchema := "type Query"
    transform := fun s => s }

/-- A starting on-disk state with a stale runtime-mode client present. -/
def fsStale : FS :=
  { clientJS := some "stale client", typesD := some "stale types", typesJS := some "stale js"
    typesTS := none, clientTS := none, queries := some "old queries"
    fragments := some "old frags", graphqlGQL := some "old schema" }

/-- A `DevEnv` whose schema build step fails. -/
def envSchemaErr : DevEnv :=
  { envAllOk with buildSchemaRes := Except.error "schema build failed" }

theorem execute_err_of_api_err (c : Codegen) (fs : FS) (e : String)
    (hA : getApiURL c.configManager c.port = Except.error e) :
    c.execute fs = Except.error e := by
  unfold Codegen.execute
  rw [hA]

theorem execute_nosdk_eq (c : Codegen) (fs : FS) (apiURL : String)
    (hsdk : c.noSDK = true)
    (hA : getApiURL c.configManager c.port = Except.ok apiURL) :
    c.execute fs
      = Except.ok { fs := removeGeneratedFilesIfExists fs, logs := [], apiURL := apiURL } := by
  unfold Codegen.execute
  rw [hA, hsdk]
  rfl

theorem execute_sdk_eq (c : Codegen) (fs : FS) (apiURL : String)
    (hsdk : c.noSDK = false)
    (hA : getApiURL c.configManager c.port = Except.ok apiURL) :
    c.execute fs
      = Except.ok
        { fs := sdkResultFS c apiURL
          logs := maybeWarnFragmentSize (some c.fragDoc)
          apiURL := apiURL } := by
  have hc : c.genClient
      = Except.ok (apiURL, clientStringOf apiURL (jsStr c.configManager.config.token)) := by
    unfold Codegen.genClient
    rw [hA]
    rfl
  have hty : c.genTypes = Except.ok (typesCodeStringOf c, schemaStringOf c) := by
    unfold Codegen.genTypes typesCodeStringOf schemaStringOf
    rw [hA]
    rfl
  unfold Codegen.execute
  rw [hA, hsdk, hc, hty]
  cases hts : c.configManager.isUsingTs <;>
    simp [sdkResultFS, hts]

theorem execute_ok_api (c : Codegen) (fs : FS) (r : ExecResult)
    (h : c.execute fs = Except.ok r) :
    getApiURL c.configManager c.port = Except.ok r.apiURL := by
  cases hA : getApiURL c.configManager c.port with
  | error e =>
    rw [execute_err_of_api_err c fs e hA] at h
    exact absurd h (by simp)
  | ok apiURL =>
    cases hsdk : c.noSDK with
    | true =>
      rw [execute_nosdk_eq c fs apiURL hsdk hA] at h
      injection h with hh
      rw [← hh]
    | false =>
      rw [execute_sdk_eq c fs apiURL hsdk hA] at h
      injection h with hh
      rw [← hh]

/-- C5: with no override URL configured and no local port, `getApiURL`
fails exactly when one of branch, clientId, token is absent, and the error
message lists exactly the missing field names in the checked order branch,
clientId, token; when all three are present, or an override or port is
given, no error is raised. -/
theorem c5_api_url_missing_fields (cm : ConfigManager) (port : Option Nat) :
    ((getApiURL cm port).isOk
      = (jsTruthy cm.config.contentApiUrlOverride || jsPortTruthy port
          || (jsTruthy cm.config.branch && jsTruthy cm.config.clientId
              && jsTruthy cm.config.token)))
  ∧ (jsTruthy cm.config.contentApiUrlOverride = false →
      jsPortTruthy port = false →
      (jsTruthy cm.config.branch && jsTruthy cm.config.clientId
        && jsTruthy cm.config.token) = false →
      getApiURL cm port
        = Except.error ("Client not configured properly. Missing "
            ++ String.intercalate ", " (missingFieldNames cm)
            ++ ". Please visit https://tina.io/docs/tina-cloud/connecting-site/ for more information")) := by
  cases hb : jsTruthy cm.config.branch <;>
  cases hc : jsTruthy cm.config.clientId <;>
  cases ht : jsTruthy cm.config.token <;>
  cases hp : jsPortTruthy port <;>
  cases ho : jsTruthy cm.config.contentApiUrlOverride <;>
  simp [getApiURL, missingFieldNames, hb, hc, ht, hp, ho, Except.isOk, Except.toBool]

/-- Witness for C5: branch configured, clientId and token absent, no port,
no override: the error lists exactly clientId, token, in order. -/
theorem c5_witness :
    jsTruthy cmMissingTwo.config.contentApiUrlOverride = false
  ∧ jsPortTruthy none = false
  ∧ (jsTruthy cmMissingTwo.config.branch && jsTruthy cmMissingTwo.config.clientId
      && jsTruthy cmMissingTwo.config.token) = false
  ∧ getApiURL cmMissingTwo none
      = Except.error "Client not configured properly. Missing clientId, token. Please visit https://tina.io/docs/tina-cloud/connecting-site/ for more information" := by
  refine ⟨rfl, rfl, rfl, ?_⟩
  have h := (c5_api_url_missing_fields cmMissingTwo none).2 rfl rfl rfl
  rw [h]
  decide

/-- C6: after every completed codegen execution with SDK generation
enabled, the on-disk generated set contains exactly the active mode's
artifacts: in statically-typed mode the typed client and type files are
written and all three runtime-mode files are absent; in runtime mode the
converse holds. -/
theorem c6_mode_exclusive_artifacts (c : Codegen) (fs : FS) (r : ExecResult)
    (hsdk : c.noSDK = false) (h : c.execute fs = Except.ok r) :
    (c.configManager.isUsingTs = true →
      r.fs.typesTS = some (typesCodeStringOf c)
      ∧ r.fs.clientTS = some (clientStringOf r.apiURL (jsStr c.configManager.config.token))
      ∧ r.fs.clientJS = none ∧ r.fs.typesD = none ∧ r.fs.typesJS = none)
  ∧ (c.configManager.isUsingTs = false →
      r.fs.typesD = some (typesCodeStringOf c)
      ∧ r.fs.typesJS = some (c.transform (typesCodeStringOf c))
      ∧ r.fs.clientJS = some (clientStringOf r.apiURL (jsStr c.configManager.config.token))
      ∧ r.fs.typesTS = none ∧ r.fs.clientTS = none) := by
  have hA := execute_ok_api c fs r h
  rw [execute_sdk_eq c fs r.apiURL hsdk hA] at h
  injection h with hh
  constructor <;> intro hts <;> rw [← hh] <;>
    simp [sdkResultFS, hts]

/-- Witness for C6: a concrete statically-typed-mode run over a stale
runtime-mode layout ends with the typed files present and the runtime
files absent. -/
theorem c6_witness :
    cgTS.noSDK = false
  ∧ ∃ r, cgTS.execute fsStale = Except.ok r
      ∧ r.fs.typesTS = some (typesCodeStringOf cgTS)
      ∧ r.fs.clientTS = some (clientStringOf r.apiURL (jsStr cgTS.configManager.config.token))
      ∧ r.fs.clientJS = none ∧ r.fs.typesD = none ∧ r.fs.typesJS = none := by
  refine ⟨rfl, ?_⟩
  obtain ⟨r, hr⟩ : ∃ r, cgTS.execute fsStale = Except.ok r := ⟨_, rfl⟩
  have h := (c6_mode_exclusive_artifacts cgTS fsStale r rfl hr).1 rfl
  exact ⟨r, hr, h.1, h.2.1, h.2.2.1, h.2.2.2.1, h.2.2.2.2⟩

theorem removeGeneratedFilesIfExists_idem (fs : FS) :
    removeGeneratedFilesIfExists (removeGeneratedFilesIfExists fs)
      = removeGeneratedFilesIfExists fs := rfl

/-- C7: running the codegen pipeline a second time with no intervening
change to configuration, content, or query documents reproduces the exact
same generated artifact contents, logs and API URL (idempotence of a full
reconcile's artifact production). -/
theorem c7_codegen_idempotent (c : Codegen) (fs : FS) (r : ExecResult)
    (h : c.execute fs = Except.ok r) :
    c.execute r.fs = Except.ok r := by
  have hA := execute_ok_api c fs r h
  cases hsdk : c.noSDK with
  | false =>
    rw [execute_sdk_eq c fs r.apiURL hsdk hA] at h
    rw [execute_sdk_eq c r.fs r.apiURL hsdk hA]
    exact h
  | true =>
    rw [execute_nosdk_eq c fs r.apiURL hsdk hA] at h
    rw [execute_nosdk_eq c r.fs r.apiURL hsdk hA]
    injection h with hh
    rw [← hh]
    simp [removeGeneratedFilesIfExists_idem]

/-- Witness for C7: a concrete run over a stale layout, re-run on its own
output, reproduces its own output exactly. -/
theorem c7_witness :
    ∃ r, cgTS.execute fsStale = Except.ok r ∧ cgTS.execute r.fs = Except.ok r := by
  obtain ⟨r, hr⟩ : ∃ r, cgTS.execute fsStale = Except.ok r := ⟨_, rfl⟩
  exact ⟨r, hr, c7_codegen_idempotent cgTS fsStale r hr⟩

/-- C8: the fragment-size check runs on the freshly written fragment
document; generation succeeds with the written fragment file holding
exactly the fragment document, and the advisory pair is logged exactly
when the document exceeds 100 KiB (strictly more than 100 * 1024 bytes). -/
theorem c8_fragment_size_advisory (c : Codegen) (fs : FS) (r : ExecResult)
    (hsdk : c.noSDK = false) (h : c.execute fs = Except.ok r) :
    r.fs.fragments = some c.fragDoc
  ∧ r.logs = (if c.fragDoc.utf8ByteSize > 100 * 1024
      then [fragmentWarning, fragmentWarningSnippet] else []) := by
  have hA := execute_ok_api c fs r h
  rw [execute_sdk_eq c fs r.apiURL hsdk hA] at h
  injection h with hh
  constructor
  · rw [← hh]
    cases hts : c.configManager.isUsingTs <;> simp [sdkResultFS, hts]
  · rw [← hh]
    simp [maybeWarnFragmentSize]

/-- Witness for C8: a concrete small fragment document is written
unchanged and no advisory is logged. -/
theorem c8_witness :
    cgTS.noSDK = false
  ∧ ∃ r, cgTS.execute fsStale = Except.ok r
      ∧ r.fs.fragments = some cgTS.fragDoc ∧ r.logs = [] := by
  refine ⟨rfl, ?_⟩
  obtain ⟨r, hr⟩ : ∃ r, cgTS.execute fsStale = Except.ok r := ⟨_, rfl⟩
  have h := c8_fragment_size_advisory cgTS fsStale r rfl hr
  refine ⟨r, hr, h.1, ?_⟩
  rw [h.2]
  decide

/-- C9: with the noSDK flag set, codegen execute deletes all seven
generated SDK files, writes nothing (the schema doc is left untouched),
and still returns the resolved API URL, so API URL validation errors are
still raised. -/
theorem c9_nosdk_behavior (c : Codegen) (fs : FS) (hsdk : c.noSDK = true) :
    (∀ r, c.execute fs = Except.ok r →
      r.fs.clientJS = none ∧ r.fs.typesD = none ∧ r.fs.typesJS = none
      ∧ r.fs.typesTS = none ∧ r.fs.clientTS = none ∧ r.fs.queries = none
      ∧ r.fs.fragments = none ∧ r.fs.graphqlGQL = fs.graphqlGQL
      ∧ getApiURL c.configManager c.port = Except.ok r.apiURL)
  ∧ (∀ e, getApiURL c.configManager c.port = Except.error e →
      c.execute fs = Except.error e) := by
  constructor
  · intro r h
    have hA := execute_ok_api c fs r h
    rw [execute_nosdk_eq c fs r.apiURL hsdk hA] at h
    injection h with hh
    rw [← hh]
    exact ⟨rfl, rfl, rfl, rfl, rfl, rfl, rfl, rfl, hA⟩
  · intro e hA
    exact execute_err_of_api_err c fs e hA

/-- Witness for C9: a concrete noSDK run deletes the seven files, keeps
the schema doc, and returns the resolved cloud API URL. -/
theorem c9_witness :
    cgNoSDK.noSDK = true
  ∧ ∃ r, cgNoSDK.execute fsStale = Except.ok r
      ∧ r.fs.clientJS = none ∧ r.fs.queries = none ∧ r.fs.fragments = none
      ∧ r.fs.graphqlGQL = fsStale.graphqlGQL
      ∧ getApiURL cgNoSDK.configManager cgNoSDK.port = Except.ok r.apiURL := by
  refine ⟨rfl, ?_⟩
  obtain ⟨r, hr⟩ : ∃ r, cgNoSDK.execute fsStale = Except.ok r := ⟨_, rfl⟩
  have h := (c9_nosdk_behavior cgNoSDK fsStale rfl).1 r hr
  exact ⟨r, hr, h.1, h.2.2.2.2.2.1, h.2.2.2.2.2.2.1, h.2.2.2.2.2.2.2.1, h.2.2.2.2.2.2.2.2⟩

theorem clientStringOf_contains (a t : String) :
    (∃ p q, clientStringOf a t = p ++ t ++ q)
  ∧ (∃ p q, clientStringOf a t = p ++ a ++ q) := by
  constructor
  · refine ⟨"import \x7b createClient \x7d from \"tinacms/dist/client\";\nimport \x7b queries \x7d from \"./types\";\nexport const client = createClient(\x7b url: \x27"
      ++ a ++ "\x27, token: \x27",
      "\x27, queries \x7d);\nexport default client;\n  ", ?_⟩
    simp [clientStringOf, String.append_assoc]
  · refine ⟨"import \x7b createClient \x7d from \"tinacms/dist/client\";\nimport \x7b queries \x7d from \"./types\";\nexport const client = createClient(\x7b url: \x27",
      "\x27, token: \x27" ++ t ++ "\x27, queries \x7d);\nexport default client;\n  ", ?_⟩
    simp [clientStringOf, String.append_assoc]

/-- C10: with SDK generation enabled and a token configured, the client
code written to the active mode's client file contains the configured
content-API token verbatim, and the resolved API URL. -/
theorem c10_token_in_client (c : Codegen) (fs : FS) (r : ExecResult) (tk : String)
    (hsdk : c.noSDK = false) (htk : c.configManager.config.token = some tk)
    (h : c.execute fs = Except.ok r) :
    ∃ cs, (if c.configManager.isUsingTs then r.fs.clientTS else r.fs.clientJS) = some cs
      ∧ (∃ p q, cs = p ++ tk ++ q)
      ∧ (∃ p q, cs = p ++ r.apiURL ++ q) := by
  have hA := execute_ok_api c fs r h
  rw [execute_sdk_eq c fs r.apiURL hsdk hA] at h
  injection h with hh
  refine ⟨clientStringOf r.apiURL tk, ?_, ?_, ?_⟩
  · rw [← hh]
    cases hts : c.configManager.isUsingTs <;>
      simp [sdkResultFS, hts, htk, jsStr]
  · exact (clientStringOf_contains r.apiURL tk).1
  · exact (clientStringOf_contains r.apiURL tk).2

/-- Witness for C10: the concrete TS-mode run writes a client file whose
text contains the configured token and the resolved API URL. -/
theorem c10_witness :
    cgTS.noSDK = false
  ∧ cgTS.configManager.config.token = some "tok123"
  ∧ ∃ r, cgTS.execute fsStale = Except.ok r
      ∧ ∃ cs, (if cgTS.configManager.isUsingTs then r.fs.clientTS else r.fs.clientJS) = some cs
          ∧ (∃ p q, cs = p ++ "tok123" ++ q)
          ∧ (∃ p q, cs = p ++ r.apiURL ++ q) := by
  refine ⟨rfl, rfl, ?_⟩
  obtain ⟨r, hr⟩ : ∃ r, cgTS.execute fsStale = Except.ok r := ⟨_, rfl⟩
  exact ⟨r, hr, c10_token_in_client cgTS fsStale r "tok123" rfl rfl hr⟩

/-- C1 (counterexample): a content-files event whose path contains the
generated-output marker still produces a Content Indexer call — marker
suppression does not apply to the content-files scope. -/
theorem c1_counterexample :
    contentFilesOnEvent id true EventKind.change "content/posts/__generated__/a.md"
      = some (DBCall.indexContentByPaths ["content/posts/__generated__/a.md"]) := by
  decide

/-- C1 (amended): events whose path contains a generated-output marker
trigger no reconcile in the config-files scope (the only scope with marker
suppression); the content-files and query-files scopes process such paths
normally. -/
theorem c1_marker_suppression_config_scope_only (env : DevEnv) (p : String)
    (h : (includes p "__generated__" || includes p "@tinacms/app"
          || includes p "tinacms/dist") = true) :
    (onConfigChange env p).1 = false
  ∧ (∀ rel : String → String, contentFilesOnEvent rel true EventKind.change p
      = some (DBCall.indexContentByPaths [rel p]))
  ∧ queriesOnEvent true EventKind.change = true := by
  refine ⟨?_, fun rel => rfl, rfl⟩
  cases h1 : includes p "__generated__" <;>
  cases h2 : includes p "@tinacms/app" <;>
  cases h3 : includes p "tinacms/dist" <;>
  simp [h1, h2, h3] at h ⊢ <;>
  simp [onConfigChange, h1, h2, h3]

/-- Witness for C1 (amended): a concrete generated-artifact path is
suppressed in the config scope yet still indexed by the content scope. -/
theorem c1_witness :
    (includes "tina/__generated__/types.ts" "__generated__"
      || includes "tina/__generated__/types.ts" "@tinacms/app"
      || includes "tina/__generated__/types.ts" "tinacms/dist") = true
  ∧ (onConfigChange envAllOk "tina/__generated__/types.ts").1 = false
  ∧ contentFilesOnEvent id true EventKind.change "tina/__generated__/types.ts"
      = some (DBCall.indexContentByPaths ["tina/__generated__/types.ts"]) := by
  have h := c1_marker_suppression_config_scope_only envAllOk
    "tina/__generated__/types.ts" (by decide)
  exact ⟨by decide, h.1, h.2.1 id⟩

/-- C2 (counterexample): a change event delivered before the content
watcher's ready signal is not dropped — the Content Indexer is called. -/
theorem c2_counterexample :
    contentFilesOnEvent id false EventKind.change "posts/a.md"
      = some (DBCall.indexContentByPaths ["posts/a.md"]) := by
  decide

/-- C2 (amended): before the ready signal only add events in the
content-files scope are dropped; change and remove events in the
content-files scope still reach the Content Indexer, and every query-files
event still invokes the codegen callback. -/
theorem c2_ready_gating_only_content_add (rel : String → String) (f : String) :
    contentFilesOnEvent rel false EventKind.add f = none
  ∧ contentFilesOnEvent rel false EventKind.change f
      = some (DBCall.indexContentByPaths [rel f])
  ∧ contentFilesOnEvent rel false EventKind.unlink f
      = some (DBCall.deleteContentByPaths [rel f])
  ∧ (∀ k, queriesOnEvent false k = true) := by
  refine ⟨rfl, rfl, rfl, fun k => ?_⟩
  cases k <;> rfl

/-- C3 (counterexample): a configuration-validation error during a
re-reconcile triggered by a config-file change terminates the process
with exit code 1 instead of keeping the session running. -/
theorem c3_counterexample :
    (onConfigChange { envAllOk with processConfigRes := Except.error "invalid collection" }
      "tina/config.ts").2 = SessionOutcome.exited 1 := by
  decide

/-- C3 (amended): for a non-suppressed config-file change, an error thrown
during the re-run of setup (schema build, lock write, codegen, indexing)
is reported and swallowed and the session keeps running; a
configuration-validation error instead exits the process with code 1. -/
theorem c3_reconcile_error_handling (env : DevEnv) (p : String) (e : String)
    (hp : (onConfigChange env p).1 = true) :
    ((setup env).1 = SetupOutcome.err e →
      (onConfigChange env p).2 = SessionOutcome.running (some e))
  ∧ (env.processConfigRes = Except.error e →
      (onConfigChange env p).2 = SessionOutcome.exited 1) := by
  cases h1 : includes p "__generated__" <;>
  cases h2 : includes p "@tinacms/app" <;>
  cases h3 : includes p "tinacms/dist" <;>
  simp [onConfigChange, h1, h2, h3] at hp ⊢ <;>
  exact ⟨fun hs => by simp [hs], fun hpc => by simp [setup, hpc]⟩

/-- Witness for C3 (amended): a schema-build failure on a config change is
swallowed and logged, and the session keeps running. -/
theorem c3_witness :
    (onConfigChange envSchemaErr "tina/config.ts").1 = true
  ∧ (onConfigChange envSchemaErr "tina/config.ts").2
      = SessionOutcome.running (some "schema build failed") := by
  refine ⟨by decide, ?_⟩
  exact (c3_reconcile_error_handling envSchemaErr "tina/config.ts"
    "schema build failed" (by decide)).1 (by decide)

/-- C4 (counterexample): in a fully successful setup run, the codegen step
precedes the full content index rebuild, contradicting the claimed order
in which the index rebuild completes before codegen starts. -/
theorem c4_counterexample :
    List.Sublist [SetupStep.codegen, SetupStep.indexContent] (setup envAllOk).2
  ∧ ¬ List.Sublist [SetupStep.indexContent, SetupStep.codegen] (setup envAllOk).2 := by
  decide

/-- C4 (amended): setup runs its steps strictly in the order
load/validate configuration, initialize database, build schema, persist
lock/manifest (skipped in legacy layout), codegen with artifact writes,
full content index rebuild; a failure at any step aborts the remaining
steps, and a successful run performs exactly the full sequence. -/
theorem c4_setup_step_order (env : DevEnv) :
    List.IsPrefix (setup env).2 (setupOrder env.isUsingLegacyFolder)
  ∧ (∀ u, (setup env).1 = SetupOutcome.ok u →
      (setup env).2 = setupOrder env.isUsingLegacyFolder) := by
  obtain ⟨pc, idb, bs, leg, wl, cg, ic⟩ := env
  cases pc <;> cases idb <;> cases bs <;> cases leg <;> cases wl <;> cases cg <;> cases ic <;>
    simp [setup, setupTail, setupOrder]

/-- Witness for C4 (amended): the all-successful environment executes
exactly the full ordered sequence. -/
theorem c4_witness :
    List.IsPrefix (setup envAllOk).2 (setupOrder envAllOk.isUsingLegacyFolder)
  ∧ (setup envAllOk).2 = setupOrder envAllOk.isUsingLegacyFolder := by
  have h := c4_setup_step_order envAllOk
  exact ⟨h.1, h.2 "http://localhost:4001/graphql" (by decide)⟩
